import Mathlib

/-!
Shallow embedding of the AI-Powered Test Case Generation & Prioritization
tool: the risk scoring engine (`src/risk_scorer.py`), the export summary
metadata (`src/exporter.py`) and the pipeline orchestrator
(`run_pipeline.py`).  Python dicts holding one test case become the
`Record` structure below (a `none` field models an absent dictionary key);
machine floats become exact rationals; the fallible division in
`get_component_risk` is additionally modelled with an explicit
`Except`-valued variant so that "never raises" is a provable statement.
-/

/-- One structured test case, as produced by the LLM parser
(`src/llm_parser.py`) and consumed by `src/risk_scorer.py` and
`src/exporter.py`.  A `none` field models an absent dictionary key. -/
structure Record where
  test_id : Option String := none
  title : Option String := none
  description : Option String := none
  preconditions : Option String := none
  test_steps : Option (List String) := none
  expected_result : Option String := none
  test_type : Option String := none
  priority : Option String := none
  components : Option (List String) := none
  risk_score : Option ℚ := none
  risk_category : Option String := none
  execution_order : Option ℕ := none
deriving DecidableEq

/-- The `PRIORITY_SCORES` dict of `src/risk_scorer.py`. -/
def PRIORITY_SCORES : List (String × ℚ) :=
  [("Critical", 10), ("High", 7), ("Medium", 4), ("Low", 2)]

/-- The `TEST_TYPE_SCORES` dict of `src/risk_scorer.py`. -/
def TEST_TYPE_SCORES : List (String × ℚ) :=
  [("Security", 8), ("Integration", 7), ("Error Handling", 6), ("Functional", 5),
   ("Performance", 4), ("UI/UX", 3), ("Edge Case", 3)]

/-- The `HIGH_RISK_COMPONENTS` dict of `src/risk_scorer.py`. -/
def HIGH_RISK_COMPONENTS : List (String × ℚ) :=
  [("Payment Gateway", 10), ("Payment", 10), ("Authentication", 9), ("Authorization", 9),
   ("Security", 9), ("Database", 7), ("API Security", 8), ("Stripe", 9),
   ("Password Management", 7), ("Access Control", 8), ("Role Management", 7),
   ("SQL Injection Prevention", 10), ("Input Validation", 6), ("Login", 7),
   ("Checkout", 8), ("Cart", 5), ("Shopping Cart", 5)]

/-- Python `d.get(k, default)` on a string-keyed dict of rationals. -/
def dictGet (d : List (String × ℚ)) (k : String) (default : ℚ) : ℚ :=
  (d.lookup k).getD default

/-- `get_complexity_score` from `src/risk_scorer.py`. -/
def get_complexity_score (test_steps : List String) : ℚ :=
  let num_steps := test_steps.length
  if num_steps ≥ 8 then 6
  else if num_steps ≥ 5 then 4
  else if num_steps ≥ 3 then 2
  else 1

/-- `get_component_risk` from `src/risk_scorer.py`. -/
def get_component_risk (components : List String) : ℚ :=
  if components = [] then 0
  else
    let total := (components.map fun comp => dictGet HIGH_RISK_COMPONENTS comp 1).sum
    min (total / (components.length : ℚ)) 10

/-- Python division, made fallible to record the `ZeroDivisionError` hazard. -/
def pydiv (a b : ℚ) : Except String ℚ :=
  if b = 0 then Except.error "ZeroDivisionError: division by zero" else Except.ok (a / b)

/-- `get_component_risk` with the division hazard explicit. -/
def get_component_risk_checked (components : List String) : Except String ℚ :=
  if components = [] then Except.ok 0
  else do
    let avg ← pydiv (components.map fun comp => dictGet HIGH_RISK_COMPONENTS comp 1).sum
      (components.length : ℚ)
    Except.ok (min avg 10)

/-- Python `round(x, 2)`, modelled on exact rationals. -/
def round2 (q : ℚ) : ℚ := (round (q * 100) : ℚ) / 100

/-- `calculate_risk_score` from `src/risk_scorer.py`. -/
def calculate_risk_score (tc : Record) : ℚ :=
  let priority := tc.priority.getD "Medium"
  let priority_score := dictGet PRIORITY_SCORES priority 4
  let ttype := tc.test_type.getD "Functional"
  let type_score := dictGet TEST_TYPE_SCORES ttype 5
  let component_score := get_component_risk (tc.components.getD [])
  let complexity_score := get_complexity_score (tc.test_steps.getD [])
  round2 (priority_score * 0.4 * 10 + type_score * 0.3 * 10 +
    component_score * 0.2 * 10 + complexity_score * 0.1 * 10)

/-- `calculate_risk_score` with the division hazard explicit. -/
def calculate_risk_score_checked (tc : Record) : Except String ℚ := do
  let priority_score := dictGet PRIORITY_SCORES (tc.priority.getD "Medium") 4
  let type_score := dictGet TEST_TYPE_SCORES (tc.test_type.getD "Functional") 5
  let component_score ← get_component_risk_checked (tc.components.getD [])
  let complexity_score := get_complexity_score (tc.test_steps.getD [])
  Except.ok (round2 (priority_score * 0.4 * 10 + type_score * 0.3 * 10 +
    component_score * 0.2 * 10 + complexity_score * 0.1 * 10))

/-- `get_risk_category` from `src/risk_scorer.py`. -/
def get_risk_category (score : ℚ) : String :=
  if score ≥ 80 then "CRITICAL"
  else if score ≥ 60 then "HIGH"
  else if score ≥ 40 then "MEDIUM"
  else "LOW"

/-- The spec's `score(record) -> (numeric_score, category_label)`: the pair
written onto each record by `add_risk_scores`. -/
def scorePair (tc : Record) : ℚ × String :=
  (calculate_risk_score tc, get_risk_category (calculate_risk_score tc))

/-- `scorePair` with the division hazard explicit. -/
def scorePair_checked (tc : Record) : Except String (ℚ × String) := do
  let s ← calculate_risk_score_checked tc
  Except.ok (s, get_risk_category s)

/-- Reference priority weight, following the spec's words: table
Critical=10, High=7, Medium=4, Low=2; unknown or missing priority maps
to 4. -/
def specPriorityWeight : Option String → ℚ
  | none => 4
  | some p => (PRIORITY_SCORES.lookup p).getD 4

/-- Reference test-type weight, following the spec's words: the fixed
test-type table; unknown or missing type maps to 5. -/
def specTypeWeight : Option String → ℚ
  | none => 5
  | some t => (TEST_TYPE_SCORES.lookup t).getD 5

/-- Reference per-component weight: the fixed component table, absent names
weighted 1. -/
def specComponentWeight (c : String) : ℚ := (HIGH_RISK_COMPONENTS.lookup c).getD 1

/-- Reference component score, following the spec's words: arithmetic mean
of the per-component weights, capped at 10; empty component set gives 0. -/
def specComponentScore (components : Option (List String)) : ℚ :=
  let l := components.getD []
  if l = [] then 0 else min ((l.map specComponentWeight).sum / (l.length : ℚ)) 10

/-- Reference complexity weight, following the spec's words: 6 for at least
8 steps, 4 for at least 5, 2 for at least 3, else 1. -/
def specComplexityWeight (steps : Option (List String)) : ℚ :=
  let n := (steps.getD []).length
  if n ≥ 8 then 6 else if n ≥ 5 then 4 else if n ≥ 3 then 2 else 1

/-- Reference composite score, following the spec's words: round to two
decimal places of `10 * (0.4*priority + 0.3*type + 0.2*component +
0.1*complexity)`. -/
def spec_score (tc : Record) : ℚ :=
  round2 (10 * (0.4 * specPriorityWeight tc.priority + 0.3 * specTypeWeight tc.test_type +
    0.2 * specComponentScore tc.components + 0.1 * specComplexityWeight tc.test_steps))

/-- C1: for every record, `calculate_risk_score` agrees with the spec's
reference definition of the composite score (weighted sum of the priority,
test-type, component and complexity weights with all documented defaults,
scaled by 10 and rounded to two decimal places). -/
theorem risk_score_matches_spec (tc : Record) : calculate_risk_score tc = spec_score tc := by
  have hp : dictGet PRIORITY_SCORES (tc.priority.getD "Medium") 4 =
      specPriorityWeight tc.priority := by
    cases tc.priority <;> rfl
  have ht : dictGet TEST_TYPE_SCORES (tc.test_type.getD "Functional") 5 =
      specTypeWeight tc.test_type := by
    cases tc.test_type <;> rfl
  have hc : get_component_risk (tc.components.getD []) = specComponentScore tc.components := rfl
  have hx : get_complexity_score (tc.test_steps.getD []) = specComplexityWeight tc.test_steps := rfl
  simp only [calculate_risk_score, spec_score, hp, ht, hc, hx]
  congr 1
  ring

/-- C2: the risk category bands of `get_risk_category` are inclusive on the
lower bound of each band: CRITICAL iff the score is at least 80, HIGH iff it
is in `[60, 80)`, MEDIUM iff it is in `[40, 60)`, LOW iff it is below 40; in
particular 80 is CRITICAL, 60 is HIGH, 40 is MEDIUM and 79.99 is HIGH. -/
theorem risk_category_bands (s : ℚ) :
    (get_risk_category s = "CRITICAL" ↔ 80 ≤ s) ∧
    (get_risk_category s = "HIGH" ↔ 60 ≤ s ∧ s < 80) ∧
    (get_risk_category s = "MEDIUM" ↔ 40 ≤ s ∧ s < 60) ∧
    (get_risk_category s = "LOW" ↔ s < 40) ∧
    get_risk_category 80 = "CRITICAL" ∧ get_risk_category 60 = "HIGH" ∧
    get_risk_category 40 = "MEDIUM" ∧ get_risk_category (7999 / 100) = "HIGH" := by
  refine ⟨?_, ?_, ?_, ?_, ?_, ?_, ?_, ?_⟩ <;>
    unfold get_risk_category <;>
    split_ifs <;>
    simp_all <;>
    intros <;>
    linarith

/-- The checked component risk never actually errors: the empty-list guard
covers the only division. -/
lemma get_component_risk_checked_ok (l : List String) :
    get_component_risk_checked l = Except.ok (get_component_risk l) := by
  unfold get_component_risk_checked get_component_risk pydiv
  by_cases h : l = []
  · simp [h]
  · have hlen : (l.length : ℚ) ≠ 0 := by
      simpa using fun hh => h (List.length_eq_zero.mp hh)
    simp [h, hlen, Bind.bind, Except.bind]

/-- C7: the scoring function never raises.  The `Except`-valued embedding of
`calculate_risk_score` (which records the division hazard of
`get_component_risk`) always returns `ok` with the pure score/category pair,
and every missing or unknown input is absorbed by its documented default:
missing priority behaves as "Medium", a priority absent from
`PRIORITY_SCORES` behaves as "Medium", missing test type behaves as
"Functional", a type absent from `TEST_TYPE_SCORES` behaves as "Functional",
missing or empty components contribute 0, and missing or empty steps give
complexity weight 1. -/
theorem scoring_never_raises (tc : Record) :
    scorePair_checked tc = Except.ok (scorePair tc) ∧
    (tc.priority = none →
      calculate_risk_score tc = calculate_risk_score { tc with priority := some "Medium" }) ∧
    (∀ p, PRIORITY_SCORES.lookup p = none →
      calculate_risk_score { tc with priority := some p } =
        calculate_risk_score { tc with priority := some "Medium" }) ∧
    (tc.test_type = none →
      calculate_risk_score tc = calculate_risk_score { tc with test_type := some "Functional" }) ∧
    (∀ t, TEST_TYPE_SCORES.lookup t = none →
      calculate_risk_score { tc with test_type := some t } =
        calculate_risk_score { tc with test_type := some "Functional" }) ∧
    (tc.components = none ∨ tc.components = some [] →
      get_component_risk (tc.components.getD []) = 0) ∧
    (tc.test_steps = none ∨ tc.test_steps = some [] →
      get_complexity_score (tc.test_steps.getD []) = 1) := by
  refine ⟨?_, ?_, ?_, ?_, ?_, ?_, ?_⟩
  · unfold scorePair_checked scorePair calculate_risk_score_checked calculate_risk_score
    simp [get_component_risk_checked_ok, Bind.bind, Except.bind]
  · intro h
    simp [calculate_risk_score, h]
  · intro p hp
    have hm : List.lookup "Medium" PRIORITY_SCORES = some 4 := rfl
    simp [calculate_risk_score, dictGet, hp, hm]
  · intro h
    simp [calculate_risk_score, h]
  · intro t ht
    have hf : List.lookup "Functional" TEST_TYPE_SCORES = some 5 := rfl
    simp [calculate_risk_score, dictGet, ht, hf]
  · rintro (h | h) <;> simp [h, get_component_risk]
  · rintro (h | h) <;> simp [h, get_complexity_score]

/-- A record with every scoring-relevant key absent, used to witness the
never-raises theorem. -/
def degenerateRecord : Record :=
  { priority := none, test_type := none, components := none, test_steps := none }

/-- Witness for C7 at a record with all scoring inputs missing. -/
theorem scoring_never_raises_witness :
    scorePair_checked degenerateRecord = Except.ok (scorePair degenerateRecord) ∧
    calculate_risk_score degenerateRecord =
      calculate_risk_score { degenerateRecord with priority := some "Medium" } :=
  ⟨(scoring_never_raises degenerateRecord).1,
   (scoring_never_raises degenerateRecord).2.1 rfl⟩

/-- The per-record writes of `add_risk_scores` (`src/risk_scorer.py`):
`tc['risk_score'] = score; tc['risk_category'] = get_risk_category(score)`. -/
def scoreRecord (tc : Record) : Record :=
  { tc with risk_score := some (calculate_risk_score tc),
            risk_category := some (get_risk_category (calculate_risk_score tc)) }

/-- The comparison realised by
`test_cases.sort(key=lambda x: x['risk_score'], reverse=True)`: `a` may come
before `b` iff `a`'s score is at least `b`'s.  Python's sort is stable, so the
sort itself is modelled by the stable `List.mergeSort` under this
comparison. -/
def scoreGe (a b : Record) : Bool := decide (b.risk_score.getD 0 ≤ a.risk_score.getD 0)

lemma scoreGe_trans : ∀ a b c : Record,
    scoreGe a b = true → scoreGe b c = true → scoreGe a c = true := by
  intro a b c h1 h2
  simp only [scoreGe, decide_eq_true_eq] at *
  exact le_trans h2 h1

lemma scoreGe_total : ∀ a b : Record, (scoreGe a b || scoreGe b a) = true := by
  intro a b
  simp only [scoreGe, Bool.or_eq_true, decide_eq_true_eq]
  exact le_total _ _

/-- The scored collection after the stable descending sort of
`add_risk_scores`. -/
def sortScored (l : List Record) : List Record :=
  (l.map scoreRecord).mergeSort scoreGe

/-- The Score stage of `add_risk_scores` on a record collection: write score
and category on each record, stable-sort by score descending, then assign the
1-based `execution_order`. -/
def rankRecords (l : List Record) : List Record :=
  (sortScored l).enum.map fun p => { p.2 with execution_order := some (p.1 + 1) }

lemma length_sortScored (l : List Record) : (sortScored l).length = l.length := by
  simp [sortScored, List.length_mergeSort]

lemma length_rankRecords (l : List Record) : (rankRecords l).length = l.length := by
  simp [rankRecords, List.enum_length, length_sortScored]

lemma rankRecords_get (l : List Record) (i : ℕ) (hi : i < (rankRecords l).length)
    (hs : i < (sortScored l).length) :
    (rankRecords l).get ⟨i, hi⟩ =
      { (sortScored l).get ⟨i, hs⟩ with execution_order := some (i + 1) } := by
  simp only [rankRecords, List.get_eq_getElem, List.getElem_map, List.getElem_enum]

/-- C5: ranking is stable.  If two records with equal computed risk score
appear in the input collection with the first before the second, then after
`add_risk_scores` sorts by score descending and assigns `execution_order`,
the record derived from the first still appears before the record derived
from the second. -/
theorem ranking_stable (l1 l2 l3 : List Record) (a b : Record)
    (h : calculate_risk_score a = calculate_risk_score b) :
    ∃ i j, i < j ∧
      ∃ (hi : i < (rankRecords (l1 ++ a :: l2 ++ b :: l3)).length)
        (hj : j < (rankRecords (l1 ++ a :: l2 ++ b :: l3)).length),
        (rankRecords (l1 ++ a :: l2 ++ b :: l3)).get ⟨i, hi⟩ =
          { scoreRecord a with execution_order := some (i + 1) } ∧
        (rankRecords (l1 ++ a :: l2 ++ b :: l3)).get ⟨j, hj⟩ =
          { scoreRecord b with execution_order := some (j + 1) } := by
  have hsub : [a, b].Sublist (l1 ++ a :: l2 ++ b :: l3) := by
    have hb : [b].Sublist (l2 ++ b :: l3) :=
      List.Sublist.trans (List.Sublist.cons₂ b (List.nil_sublist l3))
        (List.sublist_append_right l2 (b :: l3))
    have h1 : [a, b].Sublist (a :: l2 ++ b :: l3) := List.Sublist.cons₂ a hb
    have h2 := List.Sublist.append (List.nil_sublist l1) h1
    simpa using h2
  have hmap : [scoreRecord a, scoreRecord b].Sublist
      ((l1 ++ a :: l2 ++ b :: l3).map scoreRecord) := by
    exact hsub.map scoreRecord
  have hge : scoreGe (scoreRecord a) (scoreRecord b) = true := by
    simp [scoreGe, scoreRecord, h]
  have hpair : List.Pairwise (fun x y => scoreGe x y = true)
      [scoreRecord a, scoreRecord b] := by
    simp [List.pairwise_cons, hge]
  have hstab : [scoreRecord a, scoreRecord b].Sublist (sortScored (l1 ++ a :: l2 ++ b :: l3)) :=
    List.sublist_mergeSort scoreGe_trans scoreGe_total hpair hmap
  obtain ⟨is, his, hpw⟩ := List.sublist_eq_map_getElem hstab
  rcases is with _ | ⟨i, rest⟩
  · simp at his
  rcases rest with _ | ⟨j, rest2⟩
  · simp at his
  rcases rest2 with _ | ⟨k, rest3⟩
  swap
  · simp at his
  simp only [List.map_cons, List.map_nil, List.cons.injEq, and_true] at his
  have hij : (i : ℕ) < (j : ℕ) := by
    simpa [List.pairwise_cons] using hpw
  have hilen : (i : ℕ) < (rankRecords (l1 ++ a :: l2 ++ b :: l3)).length := by
    rw [length_rankRecords]
    exact lt_of_lt_of_eq i.isLt (length_sortScored _)
  have hjlen : (j : ℕ) < (rankRecords (l1 ++ a :: l2 ++ b :: l3)).length := by
    rw [length_rankRecords]
    exact lt_of_lt_of_eq j.isLt (length_sortScored _)
  refine ⟨i, j, hij, hilen, hjlen, ?_, ?_⟩
  · rw [rankRecords_get _ _ hilen i.isLt]
    exact congrArg (fun r => { r with execution_order := some ((i : ℕ) + 1) }) his.1.symm
  · rw [rankRecords_get _ _ hjlen j.isLt]
    exact congrArg (fun r => { r with execution_order := some ((j : ℕ) + 1) }) his.2.symm

/-- A small concrete record used to witness the ranking-stability theorem. -/
def tieRecord : Record := { test_id := some "TC-001", priority := some "High" }

/-- Witness for C5: two copies of the same record tie on score, and the first
copy keeps the earlier position after ranking. -/
theorem ranking_stable_witness :
    ∃ i j, i < j ∧
      ∃ (hi : i < (rankRecords ([] ++ tieRecord :: [] ++ tieRecord :: [])).length)
        (hj : j < (rankRecords ([] ++ tieRecord :: [] ++ tieRecord :: [])).length),
        (rankRecords ([] ++ tieRecord :: [] ++ tieRecord :: [])).get ⟨i, hi⟩ =
          { scoreRecord tieRecord with execution_order := some (i + 1) } ∧
        (rankRecords ([] ++ tieRecord :: [] ++ tieRecord :: [])).get ⟨j, hj⟩ =
          { scoreRecord tieRecord with execution_order := some (j + 1) } :=
  ranking_stable [] [] [] tieRecord tieRecord rfl

/-- C6: execution-order contiguity.  For a non-empty collection of N records
the Score stage returns N records whose `execution_order` values are exactly
1, …, N in output order, and the assignment is consistent with descending
`risk_score`: a strictly higher scored output record has a strictly smaller
`execution_order`. -/
theorem execution_order_contiguous (l : List Record) (hne : l ≠ []) :
    (rankRecords l).length = l.length ∧
    (rankRecords l).map (fun r => r.execution_order) = (List.range' 1 l.length).map some ∧
    ∀ i j (hi : i < (rankRecords l).length) (hj : j < (rankRecords l).length),
      ((rankRecords l).get ⟨j, hj⟩).risk_score.getD 0 <
          ((rankRecords l).get ⟨i, hi⟩).risk_score.getD 0 →
        ((rankRecords l).get ⟨i, hi⟩).execution_order.getD 0 <
          ((rankRecords l).get ⟨j, hj⟩).execution_order.getD 0 := by
  refine ⟨length_rankRecords l, ?_, ?_⟩
  · apply List.ext_getElem
    · simp [length_rankRecords l, List.length_range']
    · intro n h1 h2
      have hn : n < (rankRecords l).length := by simpa using h1
      have hs : n < (sortScored l).length := by
        rw [length_sortScored]
        rwa [length_rankRecords] at hn
      have := rankRecords_get l n hn hs
      simp only [List.get_eq_getElem] at this
      rw [List.getElem_map, this, List.getElem_map, List.getElem_range']
      simp [Nat.add_comm]
  · intro i j hi hj hlt
    have hsi : i < (sortScored l).length := by
      rw [length_sortScored]; rwa [length_rankRecords] at hi
    have hsj : j < (sortScored l).length := by
      rw [length_sortScored]; rwa [length_rankRecords] at hj
    rw [rankRecords_get l i hi hsi, rankRecords_get l j hj hsj] at hlt ⊢
    simp only [Option.getD_some] at hlt ⊢
    have hsorted := @List.sorted_mergeSort Record scoreGe scoreGe_trans scoreGe_total
      (l.map scoreRecord)
    rw [List.pairwise_iff_getElem] at hsorted
    have hij : i < j := by
      rcases lt_trichotomy i j with hc | hc | hc
      · exact hc
      · exfalso; subst hc; exact lt_irrefl _ hlt
      · exfalso
        have := hsorted j i hsj hsi hc
        simp only [scoreGe, decide_eq_true_eq] at this
        simp only [sortScored, List.get_eq_getElem] at hlt
        exact absurd this (not_le.mpr hlt)
    omega

/-- A small concrete record used to witness execution-order contiguity. -/
def soloRecord : Record := { test_id := some "TC-002", priority := some "Critical" }

/-- Witness for C6 on a one-record collection. -/
theorem execution_order_contiguous_witness :
    (rankRecords [soloRecord]).length = [soloRecord].length ∧
    (rankRecords [soloRecord]).map (fun r => r.execution_order) =
      (List.range' 1 [soloRecord].length).map some ∧
    ∀ i j (hi : i < (rankRecords [soloRecord]).length)
        (hj : j < (rankRecords [soloRecord]).length),
      ((rankRecords [soloRecord]).get ⟨j, hj⟩).risk_score.getD 0 <
          ((rankRecords [soloRecord]).get ⟨i, hi⟩).risk_score.getD 0 →
        ((rankRecords [soloRecord]).get ⟨i, hi⟩).execution_order.getD 0 <
          ((rankRecords [soloRecord]).get ⟨j, hj⟩).execution_order.getD 0 :=
  execution_order_contiguous [soloRecord] (List.cons_ne_nil soloRecord [])

/-- A record with its three derived fields cleared, used to state the frame
condition of the Score stage. -/
def eraseDerived (r : Record) : Record :=
  { r with risk_score := none, risk_category := none, execution_order := none }

/-- C9: frame condition of the Score stage.  Writing score and category onto
a record changes no other field; up to reordering, the output collection
carries exactly the input records with only the three derived fields
changed; and on every output record the three derived fields are all
written, with `risk_score`/`risk_category` determined by the matching input
record. -/
theorem scoring_frame_condition (l : List Record) :
    (∀ tc : Record, eraseDerived (scoreRecord tc) = eraseDerived tc) ∧
    ((rankRecords l).map eraseDerived).Perm (l.map eraseDerived) ∧
    ∀ r ∈ rankRecords l, ∃ tc ∈ l, ∃ k : ℕ,
      eraseDerived r = eraseDerived tc ∧
      r.risk_score = some (calculate_risk_score tc) ∧
      r.risk_category = some (get_risk_category (calculate_risk_score tc)) ∧
      r.execution_order = some k := by
  have hcomp : eraseDerived ∘ scoreRecord = eraseDerived := funext fun tc => rfl
  refine ⟨fun tc => rfl, ?_, ?_⟩
  · have h1 : (rankRecords l).map eraseDerived = (sortScored l).map eraseDerived := by
      unfold rankRecords
      rw [List.map_map]
      have h2 : (eraseDerived ∘ fun p : ℕ × Record =>
          { p.2 with execution_order := some (p.1 + 1) }) = eraseDerived ∘ Prod.snd :=
        funext fun p => rfl
      rw [h2, ← List.map_map, List.enum_map_snd]
    rw [h1]
    have h3 : ((sortScored l).map eraseDerived).Perm ((l.map scoreRecord).map eraseDerived) :=
      (List.mergeSort_perm (l.map scoreRecord) scoreGe).map eraseDerived
    rwa [List.map_map, hcomp] at h3
  · intro r hr
    unfold rankRecords at hr
    obtain ⟨⟨k, x⟩, hmem, rfl⟩ := List.mem_map.mp hr
    have hx : x ∈ sortScored l := by
      have := List.mem_map_of_mem Prod.snd hmem
      rwa [List.enum_map_snd] at this
    have hx2 : x ∈ l.map scoreRecord :=
      (List.mergeSort_perm (l.map scoreRecord) scoreGe).mem_iff.mp hx
    obtain ⟨tc, htc, rfl⟩ := List.mem_map.mp hx2
    exact ⟨tc, htc, k + 1, rfl, rfl, rfl, rfl⟩

/-- Witness for C9: the collection-level frame condition at a concrete
one-record collection. -/
theorem scoring_frame_condition_witness :
    ((rankRecords [soloRecord]).map eraseDerived).Perm ([soloRecord].map eraseDerived) :=
  (scoring_frame_condition [soloRecord]).2.1

/-- Python's `str.lower()` (modelled character-wise). -/
def pyLower (s : String) : String := ⟨s.data.map Char.toLower⟩

/-- The four-bucket counting dicts built by `export_test_cases`
(`src/exporter.py`): `{"critical": 0, "high": 0, "medium": 0, "low": 0}`. -/
structure Summary where
  critical : ℕ
  high : ℕ
  medium : ℕ
  low : ℕ
deriving DecidableEq

/-- One loop iteration of `export_test_cases`:
`if cat in summary: summary[cat] += 1`. -/
def bump (s : Summary) (cat : String) : Summary :=
  if cat = "critical" then { s with critical := s.critical + 1 }
  else if cat = "high" then { s with high := s.high + 1 }
  else if cat = "medium" then { s with medium := s.medium + 1 }
  else if cat = "low" then { s with low := s.low + 1 }
  else s

/-- The category string taken from a record by the risk-summary loop:
`tc.get('risk_category', 'UNKNOWN').lower()`. -/
def riskCatOf (tc : Record) : String := pyLower (tc.risk_category.getD "UNKNOWN")

/-- The category string taken from a record by the priority-summary loop:
`tc.get('priority', 'Unknown').lower()`. -/
def priorityCatOf (tc : Record) : String := pyLower (tc.priority.getD "Unknown")

/-- The `risk_summary` dict computed by `export_test_cases`. -/
def risk_summary (l : List Record) : Summary :=
  l.foldl (fun s tc => bump s (riskCatOf tc)) ⟨0, 0, 0, 0⟩

/-- The `priority_summary` dict computed by `export_test_cases`. -/
def priority_summary (l : List Record) : Summary :=
  l.foldl (fun s tc => bump s (priorityCatOf tc)) ⟨0, 0, 0, 0⟩

/-- The export metadata assembled by `export_test_cases` (the `export_date`
and `generated_by` strings carry no logic and are omitted). -/
structure ExportMetadata where
  total_test_cases : ℕ
  risk_summary : Summary
  priority_summary : Summary
deriving DecidableEq

/-- The metadata block of `export_test_cases` for a record collection. -/
def export_metadata (l : List Record) : ExportMetadata :=
  ⟨l.length, risk_summary l, priority_summary l⟩

lemma bump_critical (s : Summary) (c : String) :
    (bump s c).critical = s.critical + (if c = "critical" then 1 else 0) := by
  unfold bump
  split_ifs <;> simp_all

lemma bump_high (s : Summary) (c : String) :
    (bump s c).high = s.high + (if c = "high" then 1 else 0) := by
  unfold bump
  split_ifs <;> simp_all

lemma bump_medium (s : Summary) (c : String) :
    (bump s c).medium = s.medium + (if c = "medium" then 1 else 0) := by
  unfold bump
  split_ifs <;> simp_all

lemma bump_low (s : Summary) (c : String) :
    (bump s c).low = s.low + (if c = "low" then 1 else 0) := by
  unfold bump
  split_ifs <;> simp_all

lemma foldl_bump_critical (f : Record → String) (l : List Record) (s : Summary) :
    (l.foldl (fun acc tc => bump acc (f tc)) s).critical =
      s.critical + l.countP (fun tc => f tc == "critical") := by
  induction l generalizing s with
  | nil => simp
  | cons a t ih =>
    rw [List.foldl_cons, ih, bump_critical, List.countP_cons]
    by_cases h : f a = "critical" <;> simp [h] <;> omega

lemma foldl_bump_high (f : Record → String) (l : List Record) (s : Summary) :
    (l.foldl (fun acc tc => bump acc (f tc)) s).high =
      s.high + l.countP (fun tc => f tc == "high") := by
  induction l generalizing s with
  | nil => simp
  | cons a t ih =>
    rw [List.foldl_cons, ih, bump_high, List.countP_cons]
    by_cases h : f a = "high" <;> simp [h] <;> omega

lemma foldl_bump_medium (f : Record → String) (l : List Record) (s : Summary) :
    (l.foldl (fun acc tc => bump acc (f tc)) s).medium =
      s.medium + l.countP (fun tc => f tc == "medium") := by
  induction l generalizing s with
  | nil => simp
  | cons a t ih =>
    rw [List.foldl_cons, ih, bump_medium, List.countP_cons]
    by_cases h : f a = "medium" <;> simp [h] <;> omega

lemma foldl_bump_low (f : Record → String) (l : List Record) (s : Summary) :
    (l.foldl (fun acc tc => bump acc (f tc)) s).low =
      s.low + l.countP (fun tc => f tc == "low") := by
  induction l generalizing s with
  | nil => simp
  | cons a t ih =>
    rw [List.foldl_cons, ih, bump_low, List.countP_cons]
    by_cases h : f a = "low" <;> simp [h] <;> omega

/-- C10: the export metadata counts.  `total_test_cases` is the number of
records; each risk bucket counts exactly the records whose `risk_category`
equals that label case-insensitively (a missing category is counted in no
bucket), and likewise each priority bucket for the `priority` field; and the
four bucket counts can sum to strictly less than the total. -/
theorem export_summary_counts (l : List Record) :
    (export_metadata l).total_test_cases = l.length ∧
    (export_metadata l).risk_summary.critical = l.countP (fun tc =>
      match tc.risk_category with | some s => pyLower s == "critical" | none => false) ∧
    (export_metadata l).risk_summary.high = l.countP (fun tc =>
      match tc.risk_category with | some s => pyLower s == "high" | none => false) ∧
    (export_metadata l).risk_summary.medium = l.countP (fun tc =>
      match tc.risk_category with | some s => pyLower s == "medium" | none => false) ∧
    (export_metadata l).risk_summary.low = l.countP (fun tc =>
      match tc.risk_category with | some s => pyLower s == "low" | none => false) ∧
    (export_metadata l).priority_summary.critical = l.countP (fun tc =>
      match tc.priority with | some s => pyLower s == "critical" | none => false) ∧
    (export_metadata l).priority_summary.high = l.countP (fun tc =>
      match tc.priority with | some s => pyLower s == "high" | none => false) ∧
    (export_metadata l).priority_summary.medium = l.countP (fun tc =>
      match tc.priority with | some s => pyLower s == "medium" | none => false) ∧
    (export_metadata l).priority_summary.low = l.countP (fun tc =>
      match tc.priority with | some s => pyLower s == "low" | none => false) ∧
    ∃ bad : List Record,
      (export_metadata bad).risk_summary.critical + (export_metadata bad).risk_summary.high +
          (export_metadata bad).risk_summary.medium + (export_metadata bad).risk_summary.low <
        (export_metadata bad).total_test_cases := by
  refine ⟨rfl, ?_, ?_, ?_, ?_, ?_, ?_, ?_, ?_, ?_⟩
  · rw [show (export_metadata l).risk_summary = risk_summary l from rfl, risk_summary,
      foldl_bump_critical]
    simp only [Nat.zero_add]
    apply List.countP_congr
    intro tc _
    cases htc : tc.risk_category with
    | none => simp only [riskCatOf, htc, Option.getD_none]; decide
    | some s => simp [riskCatOf, htc]
  · rw [show (export_metadata l).risk_summary = risk_summary l from rfl, risk_summary,
      foldl_bump_high]
    simp only [Nat.zero_add]
    apply List.countP_congr
    intro tc _
    cases htc : tc.risk_category with
    | none => simp only [riskCatOf, htc, Option.getD_none]; decide
    | some s => simp [riskCatOf, htc]
  · rw [show (export_metadata l).risk_summary = risk_summary l from rfl, risk_summary,
      foldl_bump_medium]
    simp only [Nat.zero_add]
    apply List.countP_congr
    intro tc _
    cases htc : tc.risk_category with
    | none => simp only [riskCatOf, htc, Option.getD_none]; decide
    | some s => simp [riskCatOf, htc]
  · rw [show (export_metadata l).risk_summary = risk_summary l from rfl, risk_summary,
      foldl_bump_low]
    simp only [Nat.zero_add]
    apply List.countP_congr
    intro tc _
    cases htc : tc.risk_category with
    | none => simp only [riskCatOf, htc, Option.getD_none]; decide
    | some s => simp [riskCatOf, htc]
  · rw [show (export_metadata l).priority_summary = priority_summary l from rfl,
      priority_summary, foldl_bump_critical]
    simp only [Nat.zero_add]
    apply List.countP_congr
    intro tc _
    cases htc : tc.priority with
    | none => simp only [priorityCatOf, htc, Option.getD_none]; decide
    | some s => simp [priorityCatOf, htc]
  · rw [show (export_metadata l).priority_summary = priority_summary l from rfl,
      priority_summary, foldl_bump_high]
    simp only [Nat.zero_add]
    apply List.countP_congr
    intro tc _
    cases htc : tc.priority with
    | none => simp only [priorityCatOf, htc, Option.getD_none]; decide
    | some s => simp [priorityCatOf, htc]
  · rw [show (export_metadata l).priority_summary = priority_summary l from rfl,
      priority_summary, foldl_bump_medium]
    simp only [Nat.zero_add]
    apply List.countP_congr
    intro tc _
    cases htc : tc.priority with
    | none => simp only [priorityCatOf, htc, Option.getD_none]; decide
    | some s => simp [priorityCatOf, htc]
  · rw [show (export_metadata l).priority_summary = priority_summary l from rfl,
      priority_summary, foldl_bump_low]
    simp only [Nat.zero_add]
    apply List.countP_congr
    intro tc _
    cases htc : tc.priority with
    | none => simp only [priorityCatOf, htc, Option.getD_none]; decide
    | some s => simp [priorityCatOf, htc]
  · exact ⟨[{}], by decide⟩

/-- The run report dict built by `run_pipeline` (`run_pipeline.py`):
`{"success": ..., "steps_completed": [...], "errors": [...]}`. -/
structure RunResults where
  success : Bool
  steps_completed : List String
  errors : List String
deriving DecidableEq

/-- A pipeline run outcome: the results dict, the trace of collaborator
calls made (in order), and the text handed to the language-model
collaborator if it was called. -/
structure RunOutcome where
  results : RunResults
  invoked : List String
  llm_text : Option String
deriving DecidableEq

/-- The five stage names appended to `steps_completed`, in order. -/
def stageNames : List String :=
  ["PDF Generation", "OCR Extraction", "LLM Parsing", "Risk Scoring", "Export"]

/-- The five collaborator functions `run_pipeline` can call, in stage
order. -/
def stageCollaborators : List String :=
  ["generate_sample_qa_doc", "extract_text_from_pdf", "parse_test_cases",
   "add_risk_scores", "export_test_cases"]

/-- Inputs of one pipeline run: the three options of `run_pipeline`, the
file-existence facts it consults, and the outcome of each fallible
collaborator call (`Except.error` models a raised exception carrying
`str(e)`). -/
structure PipelineEnv where
  input_pdf : Option String
  skip_pdf : Bool
  skip_llm : Bool
  inputPdfExists : Bool
  samplePdfExists : Bool
  testcasesExists : Bool
  envFileExists : Bool
  generatePdf : Except String String
  extractText : Except String String
  parseTestCases : String → Except String ℕ
  addRiskScores : Except String ℕ
  exportTestCases : Except String ℕ

/-- Orchestrator state while stages run: stages completed so far,
collaborators invoked so far, text handed to the LLM (if any), and the
extracted text. -/
structure PipeSt where
  completed : List String
  invoked : List String
  llm_text : Option String
  text : String
deriving DecidableEq

/-- The `except` handler of `run_pipeline`: exactly one entry is appended to
the error list and the results collected so far are returned. -/
def pipeFail (s : PipeSt) (msg : String) : RunOutcome :=
  ⟨⟨false, s.completed, [msg]⟩, s.invoked, s.llm_text⟩

/-- Step 1 of `run_pipeline` when no truthy custom PDF was given: reuse the
existing sample if `skip_pdf` is set and the sample exists, otherwise call
the generator. -/
def step_pdf_default (env : PipelineEnv) (s : PipeSt) : Except RunOutcome PipeSt :=
  if env.skip_pdf && env.samplePdfExists then
    Except.ok { s with completed := s.completed ++ ["PDF Generation"] }
  else
    match env.generatePdf with
    | Except.ok _ =>
        Except.ok { s with invoked := s.invoked ++ ["generate_sample_qa_doc"],
                           completed := s.completed ++ ["PDF Generation"] }
    | Except.error e =>
        Except.error (pipeFail { s with invoked := s.invoked ++ ["generate_sample_qa_doc"] } e)

/-- Step 1 of `run_pipeline` (`STEP 1: Get PDF`).  Python's `if input_pdf:`
is truthy only for a present, non-empty path; a missing custom PDF raises
`FileNotFoundError`. -/
def step_pdf (env : PipelineEnv) (s : PipeSt) : Except RunOutcome PipeSt :=
  match env.input_pdf with
  | some p =>
      if p = "" then step_pdf_default env s
      else if env.inputPdfExists then
        Except.ok { s with completed := s.completed ++ ["PDF Generation"] }
      else Except.error (pipeFail s ("PDF file not found: " ++ p))
  | none => step_pdf_default env s

/-- Step 2 of `run_pipeline` (`STEP 2: OCR / Text Extraction`). -/
def step_ocr (env : PipelineEnv) (s : PipeSt) : Except RunOutcome PipeSt :=
  match env.extractText with
  | Except.ok t =>
      Except.ok { s with invoked := s.invoked ++ ["extract_text_from_pdf"],
                         text := t, completed := s.completed ++ ["OCR Extraction"] }
  | Except.error e =>
      Except.error (pipeFail { s with invoked := s.invoked ++ ["extract_text_from_pdf"] } e)

/-- Step 3 of `run_pipeline` (`STEP 3: LLM Parsing`): honour `skip_llm`
(failing if no prior `testcases.json` exists), else require `.env` and call
the parser on the extracted text. -/
def step_llm (env : PipelineEnv) (s : PipeSt) : Except RunOutcome PipeSt :=
  if env.skip_llm then
    if env.testcasesExists then
      Except.ok { s with completed := s.completed ++ ["LLM Parsing"] }
    else
      Except.error (pipeFail s "No existing testcases.json found. Cannot skip LLM step.")
  else if !env.envFileExists then
    Except.error (pipeFail s ".env file not found! Please create .env with your OpenAI API key.")
  else
    match env.parseTestCases s.text with
    | Except.ok _ =>
        Except.ok { s with invoked := s.invoked ++ ["parse_test_cases"],
                           llm_text := some s.text,
                           completed := s.completed ++ ["LLM Parsing"] }
    | Except.error e =>
        Except.error (pipeFail { s with invoked := s.invoked ++ ["parse_test_cases"],
                                        llm_text := some s.text } e)

/-- Step 4 of `run_pipeline` (`STEP 4: Risk Scoring`). -/
def step_score (env : PipelineEnv) (s : PipeSt) : Except RunOutcome PipeSt :=
  match env.addRiskScores with
  | Except.ok _ =>
      Except.ok { s with invoked := s.invoked ++ ["add_risk_scores"],
                         completed := s.completed ++ ["Risk Scoring"] }
  | Except.error e =>
      Except.error (pipeFail { s with invoked := s.invoked ++ ["add_risk_scores"] } e)

/-- Step 5 of `run_pipeline` (`STEP 5: Export`). -/
def step_export (env : PipelineEnv) (s : PipeSt) : Except RunOutcome PipeSt :=
  match env.exportTestCases with
  | Except.ok _ =>
      Except.ok { s with invoked := s.invoked ++ ["export_test_cases"],
                         completed := s.completed ++ ["Export"] }
  | Except.error e =>
      Except.error (pipeFail { s with invoked := s.invoked ++ ["export_test_cases"] } e)

/-- `run_pipeline` from `run_pipeline.py`: five stages in strict order
inside one try/except; the first raised exception aborts the run and
becomes the single error entry of the returned report. -/
def run_pipeline (env : PipelineEnv) : RunOutcome :=
  match step_pdf env ⟨[], [], none, ""⟩ with
  | Except.error r => r
  | Except.ok s1 =>
    match step_ocr env s1 with
    | Except.error r => r
    | Except.ok s2 =>
      match step_llm env s2 with
      | Except.error r => r
      | Except.ok s3 =>
        match step_score env s3 with
        | Except.error r => r
        | Except.ok s4 =>
          match step_export env s4 with
          | Except.error r => r
          | Except.ok s5 => ⟨⟨true, s5.completed, []⟩, s5.invoked, s5.llm_text⟩

lemma step_pdf_ok (env : PipelineEnv) (s s' : PipeSt)
    (h : step_pdf env s = Except.ok s') :
    s'.completed = s.completed ++ ["PDF Generation"] ∧
    s'.invoked.Sublist (s.invoked ++ ["generate_sample_qa_doc"]) ∧
    s'.llm_text = s.llm_text ∧ s'.text = s.text := by
  unfold step_pdf step_pdf_default at h
  repeat' split at h
  all_goals try simp only [Except.ok.injEq, Except.error.injEq] at h
  all_goals try subst h
  all_goals simp_all [List.sublist_append_left]

lemma step_pdf_error (env : PipelineEnv) (s : PipeSt) (r : RunOutcome)
    (h : step_pdf env s = Except.error r) :
    r.results.success = false ∧ r.results.steps_completed = s.completed ∧
    r.results.errors.length = 1 ∧
    r.invoked.Sublist (s.invoked ++ ["generate_sample_qa_doc"]) ∧
    r.llm_text = s.llm_text := by
  unfold step_pdf step_pdf_default at h
  repeat' split at h
  all_goals try simp only [Except.ok.injEq, Except.error.injEq] at h
  all_goals try subst h
  all_goals simp_all [pipeFail, List.sublist_append_left]

lemma step_ocr_ok (env : PipelineEnv) (s s' : PipeSt)
    (h : step_ocr env s = Except.ok s') :
    s'.completed = s.completed ++ ["OCR Extraction"] ∧
    s'.invoked.Sublist (s.invoked ++ ["extract_text_from_pdf"]) ∧
    s'.llm_text = s.llm_text ∧ env.extractText = Except.ok s'.text := by
  unfold step_ocr at h
  split at h
  all_goals try simp only [Except.ok.injEq, Except.error.injEq] at h
  all_goals try subst h
  all_goals simp_all [List.sublist_append_left]

lemma step_ocr_error (env : PipelineEnv) (s : PipeSt) (r : RunOutcome)
    (h : step_ocr env s = Except.error r) :
    r.results.success = false ∧ r.results.steps_completed = s.completed ∧
    r.results.errors.length = 1 ∧
    r.invoked.Sublist (s.invoked ++ ["extract_text_from_pdf"]) ∧
    r.llm_text = s.llm_text := by
  unfold step_ocr at h
  split at h
  all_goals try simp only [Except.ok.injEq, Except.error.injEq] at h
  all_goals try subst h
  all_goals simp_all [pipeFail, List.sublist_append_left]

lemma step_llm_ok (env : PipelineEnv) (s s' : PipeSt)
    (h : step_llm env s = Except.ok s') :
    s'.completed = s.completed ++ ["LLM Parsing"] ∧
    s'.invoked.Sublist (s.invoked ++ ["parse_test_cases"]) ∧
    (s'.llm_text = s.llm_text ∨ s'.llm_text = some s.text) := by
  unfold step_llm at h
  repeat' split at h
  all_goals try simp only [Except.ok.injEq, Except.error.injEq] at h
  all_goals try subst h
  all_goals simp_all [List.sublist_append_left]

lemma step_llm_error (env : PipelineEnv) (s : PipeSt) (r : RunOutcome)
    (h : step_llm env s = Except.error r) :
    r.results.success = false ∧ r.results.steps_completed = s.completed ∧
    r.results.errors.length = 1 ∧
    r.invoked.Sublist (s.invoked ++ ["parse_test_cases"]) ∧
    (r.llm_text = s.llm_text ∨ r.llm_text = some s.text) := by
  unfold step_llm at h
  repeat' split at h
  all_goals try simp only [Except.ok.injEq, Except.error.injEq] at h
  all_goals try subst h
  all_goals simp_all [pipeFail, List.sublist_append_left]

lemma step_score_ok (env : PipelineEnv) (s s' : PipeSt)
    (h : step_score env s = Except.ok s') :
    s'.completed = s.completed ++ ["Risk Scoring"] ∧
    s'.invoked.Sublist (s.invoked ++ ["add_risk_scores"]) ∧
    s'.llm_text = s.llm_text := by
  unfold step_score at h
  split at h
  all_goals try simp only [Except.ok.injEq, Except.error.injEq] at h
  all_goals try subst h
  all_goals simp_all [List.sublist_append_left]

lemma step_score_error (env : PipelineEnv) (s : PipeSt) (r : RunOutcome)
    (h : step_score env s = Except.error r) :
    r.results.success = false ∧ r.results.steps_completed = s.completed ∧
    r.results.errors.length = 1 ∧
    r.invoked.Sublist (s.invoked ++ ["add_risk_scores"]) ∧
    r.llm_text = s.llm_text := by
  unfold step_score at h
  split at h
  all_goals try simp only [Except.ok.injEq, Except.error.injEq] at h
  all_goals try subst h
  all_goals simp_all [pipeFail, List.sublist_append_left]

lemma step_export_ok (env : PipelineEnv) (s s' : PipeSt)
    (h : step_export env s = Except.ok s') :
    s'.completed = s.completed ++ ["Export"] ∧
    s'.invoked.Sublist (s.invoked ++ ["export_test_cases"]) ∧
    s'.llm_text = s.llm_text := by
  unfold step_export at h
  split at h
  all_goals try simp only [Except.ok.injEq, Except.error.injEq] at h
  all_goals try subst h
  all_goals simp_all [List.sublist_append_left]

lemma step_export_error (env : PipelineEnv) (s : PipeSt) (r : RunOutcome)
    (h : step_export env s = Except.error r) :
    r.results.success = false ∧ r.results.steps_completed = s.completed ∧
    r.results.errors.length = 1 ∧
    r.invoked.Sublist (s.invoked ++ ["export_test_cases"]) ∧
    r.llm_text = s.llm_text := by
  unfold step_export at h
  split at h
  all_goals try simp only [Except.ok.injEq, Except.error.injEq] at h
  all_goals try subst h
  all_goals simp_all [pipeFail, List.sublist_append_left]

/-- C3: fail-fast.  Whenever a run fails (its report's `success` is false),
the returned report has exactly one error entry, `steps_completed` is
exactly the ordered list of stages that did complete (an initial segment of
the stage order), and the collaborators invoked form a subsequence of the
stage-ordered collaborator list cut off right after the failing stage - so
no later stage was attempted and no stage ran twice. -/
theorem pipeline_fail_fast (env : PipelineEnv)
    (h : (run_pipeline env).results.success = false) :
    (run_pipeline env).results.errors.length = 1 ∧
    (run_pipeline env).results.steps_completed =
      stageNames.take (run_pipeline env).results.steps_completed.length ∧
    (run_pipeline env).invoked.Sublist
      (stageCollaborators.take ((run_pipeline env).results.steps_completed.length + 1)) := by
  unfold run_pipeline at h ⊢
  rcases h1 : step_pdf env ⟨[], [], none, ""⟩ with r1 | s1
  · dsimp only at h ⊢
    obtain ⟨_, hc, he, hi, _⟩ := step_pdf_error env _ r1 h1
    refine ⟨he, ?_, ?_⟩
    · rw [hc]; rfl
    · rw [hc]
      simpa [stageCollaborators] using hi
  · dsimp only at h ⊢
    obtain ⟨hc1, hi1, _, _⟩ := step_pdf_ok env _ s1 h1
    have c1 : s1.completed = ["PDF Generation"] := by simpa using hc1
    have b1 : s1.invoked.Sublist ["generate_sample_qa_doc"] := by simpa using hi1
    rcases h2 : step_ocr env s1 with r2 | s2
    · dsimp only at h ⊢
      obtain ⟨_, hc, he, hi, _⟩ := step_ocr_error env _ r2 h2
      refine ⟨he, ?_, ?_⟩
      · rw [hc, c1]; rfl
      · rw [hc, c1]
        have hb := List.Sublist.trans hi
          (b1.append (List.Sublist.refl ["extract_text_from_pdf"]))
        simpa [stageNames, stageCollaborators] using hb
    · dsimp only at h ⊢
      obtain ⟨hc2, hi2, _, _⟩ := step_ocr_ok env _ s2 h2
      have c2 : s2.completed = ["PDF Generation", "OCR Extraction"] := by simp [hc2, c1]
      have b2 : s2.invoked.Sublist ["generate_sample_qa_doc", "extract_text_from_pdf"] := by
        have hb := List.Sublist.trans hi2
          (b1.append (List.Sublist.refl ["extract_text_from_pdf"]))
        simpa using hb
      rcases h3 : step_llm env s2 with r3 | s3
      · dsimp only at h ⊢
        obtain ⟨_, hc, he, hi, _⟩ := step_llm_error env _ r3 h3
        refine ⟨he, ?_, ?_⟩
        · rw [hc, c2]; rfl
        · rw [hc, c2]
          have hb := List.Sublist.trans hi
            (b2.append (List.Sublist.refl ["parse_test_cases"]))
          simpa [stageNames, stageCollaborators] using hb
      · dsimp only at h ⊢
        obtain ⟨hc3, hi3, _⟩ := step_llm_ok env _ s3 h3
        have c3 : s3.completed = ["PDF Generation", "OCR Extraction", "LLM Parsing"] := by
          simp [hc3, c2]
        have b3 : s3.invoked.Sublist
            ["generate_sample_qa_doc", "extract_text_from_pdf", "parse_test_cases"] := by
          have hb := List.Sublist.trans hi3
            (b2.append (List.Sublist.refl ["parse_test_cases"]))
          simpa using hb
        rcases h4 : step_score env s3 with r4 | s4
        · dsimp only at h ⊢
          obtain ⟨_, hc, he, hi, _⟩ := step_score_error env _ r4 h4
          refine ⟨he, ?_, ?_⟩
          · rw [hc, c3]; rfl
          · rw [hc, c3]
            have hb := List.Sublist.trans hi
              (b3.append (List.Sublist.refl ["add_risk_scores"]))
            simpa [stageNames, stageCollaborators] using hb
        · dsimp only at h ⊢
          obtain ⟨hc4, hi4, _⟩ := step_score_ok env _ s4 h4
          have c4 : s4.completed =
              ["PDF Generation", "OCR Extraction", "LLM Parsing", "Risk Scoring"] := by
            simp [hc4, c3]
          have b4 : s4.invoked.Sublist
              ["generate_sample_qa_doc", "extract_text_from_pdf", "parse_test_cases",
               "add_risk_scores"] := by
            have hb := List.Sublist.trans hi4
              (b3.append (List.Sublist.refl ["add_risk_scores"]))
            simpa using hb
          rcases h5 : step_export env s4 with r5 | s5
          · dsimp only at h ⊢
            obtain ⟨_, hc, he, hi, _⟩ := step_export_error env _ r5 h5
            refine ⟨he, ?_, ?_⟩
            · rw [hc, c4]; rfl
            · rw [hc, c4]
              have hb := List.Sublist.trans hi
                (b4.append (List.Sublist.refl ["export_test_cases"]))
              simpa [stageNames, stageCollaborators] using hb
          · simp only [h1, h2, h3, h4, h5] at h
            simp at h

/-- A concrete run environment whose extraction stage raises. -/
def failingEnv : PipelineEnv :=
  { input_pdf := none, skip_pdf := true, skip_llm := false,
    inputPdfExists := false, samplePdfExists := true, testcasesExists := false,
    envFileExists := true,
    generatePdf := Except.ok "data/raw_docs/sample_qa_doc.pdf",
    extractText := Except.error "PDF not found: data/raw_docs/sample_qa_doc.pdf",
    parseTestCases := fun _ => Except.ok 5,
    addRiskScores := Except.ok 5, exportTestCases := Except.ok 5 }

/-- Witness for C3 at a run that fails during OCR extraction. -/
theorem pipeline_fail_fast_witness :
    (run_pipeline failingEnv).results.success = false ∧
    (run_pipeline failingEnv).results.errors.length = 1 ∧
    (run_pipeline failingEnv).results.steps_completed =
      stageNames.take (run_pipeline failingEnv).results.steps_completed.length ∧
    (run_pipeline failingEnv).invoked.Sublist
      (stageCollaborators.take
        ((run_pipeline failingEnv).results.steps_completed.length + 1)) :=
  ⟨by decide, pipeline_fail_fast failingEnv (by decide)⟩

/-- C4: requesting skip-structuring without the structured-records artifact
fails fast at the Structure stage.  When `skip_llm` is set, `testcases.json`
is absent, and the first two stages completed, the run stops with exactly
the skip-failure error, `steps_completed` is exactly PDF Generation and OCR
Extraction, the Structure stage is not silently run (the parser is never
invoked and no text reaches the LLM), and neither the scorer nor the
exporter is invoked. -/
theorem skip_structuring_requires_artifact (env : PipelineEnv)
    (hskip : env.skip_llm = true) (habs : env.testcasesExists = false)
    (hreach : 2 ≤ (run_pipeline env).results.steps_completed.length) :
    (run_pipeline env).results =
      ⟨false, ["PDF Generation", "OCR Extraction"],
        ["No existing testcases.json found. Cannot skip LLM step."]⟩ ∧
    "parse_test_cases" ∉ (run_pipeline env).invoked ∧
    "add_risk_scores" ∉ (run_pipeline env).invoked ∧
    "export_test_cases" ∉ (run_pipeline env).invoked ∧
    (run_pipeline env).llm_text = none := by
  unfold run_pipeline at hreach ⊢
  rcases h1 : step_pdf env ⟨[], [], none, ""⟩ with r1 | s1
  · obtain ⟨_, hc, _, _, _⟩ := step_pdf_error env _ r1 h1
    simp only [h1] at hreach
    rw [hc] at hreach
    simp at hreach
  · obtain ⟨hc1, hi1, hl1, _⟩ := step_pdf_ok env _ s1 h1
    have c1 : s1.completed = ["PDF Generation"] := by simpa using hc1
    have b1 : s1.invoked.Sublist ["generate_sample_qa_doc"] := by simpa using hi1
    have l1 : s1.llm_text = none := by simpa using hl1
    simp only [h1] at hreach ⊢
    rcases h2 : step_ocr env s1 with r2 | s2
    · obtain ⟨_, hc, _, _, _⟩ := step_ocr_error env _ r2 h2
      simp only [h2] at hreach
      rw [hc, c1] at hreach
      simp at hreach
    · obtain ⟨hc2, hi2, hl2, _⟩ := step_ocr_ok env _ s2 h2
      have c2 : s2.completed = ["PDF Generation", "OCR Extraction"] := by simp [hc2, c1]
      have b2 : s2.invoked.Sublist ["generate_sample_qa_doc", "extract_text_from_pdf"] := by
        have hb := List.Sublist.trans hi2
          (b1.append (List.Sublist.refl ["extract_text_from_pdf"]))
        simpa using hb
      have l2 : s2.llm_text = none := by rw [hl2, l1]
      simp only [h2] at hreach ⊢
      have h3 : step_llm env s2 = Except.error
          (pipeFail s2 "No existing testcases.json found. Cannot skip LLM step.") := by
        simp [step_llm, hskip, habs]
      simp only [h3]
      refine ⟨?_, ?_, ?_, ?_, ?_⟩
      · simp [pipeFail, c2]
      · simp only [pipeFail]
        intro hmem
        exact absurd (List.Sublist.mem hmem b2) (by decide)
      · simp only [pipeFail]
        intro hmem
        exact absurd (List.Sublist.mem hmem b2) (by decide)
      · simp only [pipeFail]
        intro hmem
        exact absurd (List.Sublist.mem hmem b2) (by decide)
      · simp [pipeFail, l2]

/-- A concrete run requesting skip-structuring with no prior
`testcases.json` artifact. -/
def skipNoArtifactEnv : PipelineEnv :=
  { input_pdf := some "mydoc.pdf", skip_pdf := false, skip_llm := true,
    inputPdfExists := true, samplePdfExists := false, testcasesExists := false,
    envFileExists := true, generatePdf := Except.ok "x",
    extractText := Except.ok "some extracted text",
    parseTestCases := fun _ => Except.ok 3,
    addRiskScores := Except.ok 3, exportTestCases := Except.ok 3 }

/-- Witness for C4 at a concrete skip-structuring run without the
artifact. -/
theorem skip_structuring_requires_artifact_witness :
    (run_pipeline skipNoArtifactEnv).results =
      ⟨false, ["PDF Generation", "OCR Extraction"],
        ["No existing testcases.json found. Cannot skip LLM step."]⟩ ∧
    "parse_test_cases" ∉ (run_pipeline skipNoArtifactEnv).invoked ∧
    "add_risk_scores" ∉ (run_pipeline skipNoArtifactEnv).invoked ∧
    "export_test_cases" ∉ (run_pipeline skipNoArtifactEnv).invoked ∧
    (run_pipeline skipNoArtifactEnv).llm_text = none :=
  skip_structuring_requires_artifact skipNoArtifactEnv rfl rfl (by decide)

lemma step_score_invoked_mono_ok (env : PipelineEnv) (s s' : PipeSt)
    (h : step_score env s = Except.ok s') : s.invoked.Sublist s'.invoked := by
  unfold step_score at h
  split at h
  all_goals try simp only [Except.ok.injEq, Except.error.injEq] at h
  all_goals try subst h
  all_goals simp_all [List.sublist_append_left]

lemma step_score_invoked_mono_error (env : PipelineEnv) (s : PipeSt) (r : RunOutcome)
    (h : step_score env s = Except.error r) : s.invoked.Sublist r.invoked := by
  unfold step_score at h
  split at h
  all_goals try simp only [Except.ok.injEq, Except.error.injEq] at h
  all_goals try subst h
  all_goals simp_all [pipeFail, List.sublist_append_left]

lemma step_export_invoked_mono_ok (env : PipelineEnv) (s s' : PipeSt)
    (h : step_export env s = Except.ok s') : s.invoked.Sublist s'.invoked := by
  unfold step_export at h
  split at h
  all_goals try simp only [Except.ok.injEq, Except.error.injEq] at h
  all_goals try subst h
  all_goals simp_all [List.sublist_append_left]

lemma step_export_invoked_mono_error (env : PipelineEnv) (s : PipeSt) (r : RunOutcome)
    (h : step_export env s = Except.error r) : s.invoked.Sublist r.invoked := by
  unfold step_export at h
  split at h
  all_goals try simp only [Except.ok.injEq, Except.error.injEq] at h
  all_goals try subst h
  all_goals simp_all [pipeFail, List.sublist_append_left]

/-- A run whose extraction succeeds with empty text and whose remaining
collaborators all succeed. -/
def emptyTextEnv : PipelineEnv :=
  { input_pdf := some "empty.pdf", skip_pdf := false, skip_llm := false,
    inputPdfExists := true, samplePdfExists := false, testcasesExists := false,
    envFileExists := true, generatePdf := Except.ok "x",
    extractText := Except.ok "",
    parseTestCases := fun _ => Except.ok 0,
    addRiskScores := Except.ok 0, exportTestCases := Except.ok 0 }

/-- Counterexample to C8: when the Extract stage returns empty text, the
orchestrator does not fail at the Structure stage.  On `emptyTextEnv` the
run succeeds end to end with no error entry, and the empty text is handed
to the language-model collaborator. -/
theorem empty_text_reaches_llm_counterexample :
    (run_pipeline emptyTextEnv).results.success = true ∧
    (run_pipeline emptyTextEnv).results.errors = [] ∧
    "parse_test_cases" ∈ (run_pipeline emptyTextEnv).invoked ∧
    (run_pipeline emptyTextEnv).llm_text = some "" := by decide

/-- C8 amended: `run_pipeline` performs no emptiness check on the extracted
text.  Whenever the PDF stage completed, extraction succeeded with text `t`
(whether empty, whitespace-only or not), structuring is not skipped and
`.env` exists, the orchestrator hands exactly `t` to the language-model
collaborator; empty extracted text is never turned into a Structure-stage
precondition failure. -/
theorem extracted_text_forwarded_unchanged (env : PipelineEnv) (t : String)
    (hext : env.extractText = Except.ok t) (hskip : env.skip_llm = false)
    (henv : env.envFileExists = true)
    (hpdf : "PDF Generation" ∈ (run_pipeline env).results.steps_completed) :
    (run_pipeline env).llm_text = some t ∧
    "parse_test_cases" ∈ (run_pipeline env).invoked := by
  unfold run_pipeline at hpdf ⊢
  rcases h1 : step_pdf env ⟨[], [], none, ""⟩ with r1 | s1
  · obtain ⟨_, hc, _, _, _⟩ := step_pdf_error env _ r1 h1
    simp only [h1] at hpdf
    rw [hc] at hpdf
    simp at hpdf
  · simp only [h1] at hpdf ⊢
    rcases h2 : step_ocr env s1 with r2 | s2
    · exfalso
      unfold step_ocr at h2
      rw [hext] at h2
      exact Except.noConfusion h2
    · obtain ⟨_, _, hl2, hT⟩ := step_ocr_ok env _ s2 h2
      have htext : s2.text = t := by
        rw [hext] at hT
        exact (Except.ok.injEq _ _ ▸ hT.symm : _) ▸ rfl
      simp only [h2] at hpdf ⊢
      rcases hp : env.parseTestCases s2.text with e | n
      · have h3 : step_llm env s2 = Except.error
            (pipeFail { s2 with invoked := s2.invoked ++ ["parse_test_cases"],
                                llm_text := some s2.text } e) := by
          simp [step_llm, hskip, henv, hp]
        simp only [h3]
        constructor
        · simp [pipeFail, htext]
        · simp [pipeFail]
      · have h3 : step_llm env s2 = Except.ok
            { s2 with invoked := s2.invoked ++ ["parse_test_cases"],
                      llm_text := some s2.text,
                      completed := s2.completed ++ ["LLM Parsing"] } := by
          simp [step_llm, hskip, henv, hp]
        simp only [h3]
        set s3 : PipeSt :=
          { s2 with invoked := s2.invoked ++ ["parse_test_cases"],
                    llm_text := some s2.text,
                    completed := s2.completed ++ ["LLM Parsing"] } with hs3
        have hmem3 : "parse_test_cases" ∈ s3.invoked := by simp [hs3]
        have hl3 : s3.llm_text = some t := by simp [hs3, htext]
        rcases h4 : step_score env s3 with r4 | s4
        · dsimp only
          obtain ⟨_, _, _, _, hl⟩ := step_score_error env _ r4 h4
          have hmono := step_score_invoked_mono_error env _ r4 h4
          exact ⟨by rw [hl, hl3], List.Sublist.mem hmem3 hmono⟩
        · dsimp only
          obtain ⟨_, _, hl⟩ := step_score_ok env _ s4 h4
          have hmono := step_score_invoked_mono_ok env _ s4 h4
          have hmem4 : "parse_test_cases" ∈ s4.invoked := List.Sublist.mem hmem3 hmono
          have hl4 : s4.llm_text = some t := by rw [hl, hl3]
          rcases h5 : step_export env s4 with r5 | s5
          · dsimp only
            obtain ⟨_, _, _, _, hl5⟩ := step_export_error env _ r5 h5
            have hmono5 := step_export_invoked_mono_error env _ r5 h5
            exact ⟨by rw [hl5, hl4], List.Sublist.mem hmem4 hmono5⟩
          · dsimp only
            obtain ⟨_, _, hl5⟩ := step_export_ok env _ s5 h5
            have hmono5 := step_export_invoked_mono_ok env _ s5 h5
            exact ⟨by rw [hl5, hl4], List.Sublist.mem hmem4 hmono5⟩

/-- Witness for the amended C8: on the concrete empty-text run the empty
string itself is forwarded to the language-model collaborator. -/
theorem extracted_text_forwarded_unchanged_witness :
    (run_pipeline emptyTextEnv).llm_text = some "" ∧
    "parse_test_cases" ∈ (run_pipeline emptyTextEnv).invoked :=
  extracted_text_forwarded_unchanged emptyTextEnv "" rfl rfl rfl (by decide)
